import Mathlib

/-!
Shallow embedding of the two scripts of the `dwloader` repository
(`src/download_data.py` and `src/streamlit_integrated_app.py`).

External effects are made explicit:
* the market-data provider is an oracle function (per attempt, or per symbol)
  returning either a dataframe (modelled by its row count) or a raised
  exception message;
* file writes and one-second back-off sleeps performed by
  `download_ticker_data` are collected in an explicit trace;
* the presence of the on-disk cache artifact `{ticker}.csv` is a boolean
  input.
Dataframe contents other than what the claims mention (row counts, the
columns consulted by the merge/filter block) are abstracted; numeric
columns use `ℚ`.
-/

/-- Outcome of one call to `yf.Ticker(...).history(...)`: either a dataframe
with `rows` rows (possibly empty) or a raised exception with message. -/
inductive HistResult where
  | df (rows : Nat)
  | exn (msg : String)
deriving DecidableEq, Repr

/-- Result and effect trace of one `download_ticker_data` run:
the returned `(ok, message)` pair, the number of `stock.history` fetch
invocations, the list of back-off sleep durations (seconds, in order), and
the list of file names written into the cache directory. -/
structure DLOut where
  result : Bool × String
  calls : Nat
  sleeps : List Nat
  writes : List String
deriving DecidableEq, Repr

/-- The `for attempt in range(3)` retry loop of `download_ticker_data`
(src/download_data.py lines 37-62).  `attempt` is the current loop index,
`fuel` the number of loop iterations left (`3 - attempt` on entry);
running out of fuel is the loop falling through to
`return False, "3번 시도 실패"`.  On a non-empty dataframe the run saves
`{ticker}.csv` and returns the row count; on an empty dataframe or an
exception it sleeps 1 s and retries while `attempt < 2`, else returns the
failure with that attempt's own message. -/
def retryLoopAux (provider : Nat → HistResult) (ticker : String) :
    Nat → Nat → DLOut
  | _, 0 => ⟨(false, "3번 시도 실패"), 0, [], []⟩
  | attempt, fuel + 1 =>
    match provider attempt with
    | .df rows =>
      if rows ≠ 0 then
        ⟨(true, toString rows ++ "개 데이터"), 1, [], [ticker ++ ".csv"]⟩
      else if attempt < 2 then
        let r := retryLoopAux provider ticker (attempt + 1) fuel
        ⟨r.result, r.calls + 1, 1 :: r.sleeps, r.writes⟩
      else
        ⟨(false, "데이터 없음"), 1, [], []⟩
    | .exn msg =>
      if attempt < 2 then
        let r := retryLoopAux provider ticker (attempt + 1) fuel
        ⟨r.result, r.calls + 1, 1 :: r.sleeps, r.writes⟩
      else
        ⟨(false, msg), 1, [], []⟩

/-- The retry loop entered at attempt 0 with its three iterations. -/
def retryLoop (provider : Nat → HistResult) (ticker : String) : DLOut :=
  retryLoopAux provider ticker 0 3

/-- `download_ticker_data` (src/download_data.py lines 28-62): if the cache
artifact `{ticker}.csv` already exists (`cached`), return
`(True, "이미 다운로드됨")` at once; otherwise run the retry loop. -/
def download_ticker_data (cached : Bool) (provider : Nat → HistResult)
    (ticker : String) : DLOut :=
  if cached then ⟨(true, "이미 다운로드됨"), 0, [], []⟩
  else retryLoop provider ticker

/-- `shouldFetch` of the Cache/Skip layer: `download_ticker_data` fetches
iff the artifact does not already exist (the `if path.exists()` guard at
src/download_data.py lines 30-34). -/
def shouldFetch (cached : Bool) : Bool :=
  !cached

/-- The ticker pre-filter of `main` (src/download_data.py line 161):
`[t for t in selected_tickers if t not in existing_tickers]`. -/
def selectNewTickers (selected existing : List String) : List String :=
  selected.filter (fun t => !existing.contains t)

/-- The per-ticker loop of `main` (src/download_data.py lines 197-214):
each ticker is fetched and appended to `success_list` or, paired with the
failure reason, to `fail_list`; the loop never stops early. `fetch` is
`download_ticker_data`'s returned pair for that ticker. -/
def runBatch (fetch : String → Bool × String) :
    List String → List String × List (String × String)
  | [] => ([], [])
  | t :: ts =>
    let (ok, result) := fetch t
    let rest := runBatch fetch ts
    if ok then (t :: rest.1, rest.2) else (rest.1, (t, result) :: rest.2)

/-- `create_download_zip` of src/download_data.py lines 64-76: list the
cache directory's `*.csv` files; if none, return `None` (no archive);
otherwise the archive's entries are exactly those file names, in listing
order. -/
def create_download_zip (csvFiles : List String) : Option (List String) :=
  if csvFiles.isEmpty then none
  else some csvFiles

/-- Per-symbol outcome of the provider in `get_ticker_info_batch`
(src/streamlit_integrated_app.py lines 71-95): `ok` when `ticker.history("5d")`
is non-empty, carrying the `Name` value computed from the info dict
(`info.get('longName', info.get('shortName', symbol))`; `none` models a
null value landing in the dataframe as NaN) and the computed last price,
average volume and market cap; `empty` when the history is empty; `exn`
when any of the calls raises. -/
inductive InfoOutcome where
  | ok (name : Option String) (lastPrice avgVolume marketCap : ℚ)
  | empty
  | exn (msg : String)
deriving DecidableEq, Repr

/-- One row of the dataframe built by `get_ticker_info_batch`
(keys `Symbol, Name, Last Sale, Market Cap, Volume`). -/
structure InfoRow where
  symbol : String
  nameInfo : Option String
  lastSale : ℚ
  marketCap : ℚ
  volume : ℚ
deriving DecidableEq, Repr

/-- `get_ticker_info_batch` (src/streamlit_integrated_app.py lines 66-107):
for each symbol in order, a successful lookup appends a row to
`ticker_info`, an empty history or an exception appends the symbol to
`failed_tickers`; the loop always continues to the next symbol. -/
def get_ticker_info_batch (provider : String → InfoOutcome) :
    List String → List InfoRow × List String
  | [] => ([], [])
  | s :: ss =>
    let rest := get_ticker_info_batch provider ss
    match provider s with
    | .ok name lastPrice avgVolume marketCap =>
      (⟨s, name, lastPrice, marketCap, avgVolume⟩ :: rest.1, rest.2)
    | .empty => (rest.1, s :: rest.2)
    | .exn _ => (rest.1, s :: rest.2)

/-- `fetch_stock_data` (src/streamlit_integrated_app.py lines 109-131):
returns the normalized dataframe (abstracted to its row count) on a
non-empty history, and `None` both when the history is empty and when the
provider raises. -/
def fetch_stock_data (outcome : HistResult) : Option Nat :=
  match outcome with
  | .df rows => if rows = 0 then none else some rows
  | .exn _ => none

/-- `create_download_zip(data_dict)` of src/streamlit_integrated_app.py
lines 133-145: one archive entry per dict item, named `{filename}.csv`, in
the dict's iteration order; the serialized dataframe payload is abstracted
by a `Nat`. -/
def create_download_zip_dict (dataDict : List (String × Nat)) :
    List (String × Nat) :=
  dataDict.map (fun p => (p.1 ++ ".csv", p.2))

/-- The guard at src/streamlit_integrated_app.py line 334: the ZIP download
button is offered only `if successful_data:` (non-empty dict). -/
def zipOffered (successfulData : List (String × Nat)) : Bool :=
  !successfulData.isEmpty

/-- A row of the ticker-list dataframe (`Symbol, Name, Market Category,
Exchange`), i.e. the left side of the tab-2 merge. -/
structure MetaRow where
  symbol : String
  name : String
  marketCategory : String
  exchange : String
deriving DecidableEq, Repr

/-- A merged-and-resolved row of the tab-2 block (metadata columns plus the
summary columns, with the `Name` column after resolution). -/
structure MergedRow where
  symbol : String
  name : String
  marketCategory : String
  exchange : String
  lastSale : ℚ
  marketCap : ℚ
  volume : ℚ
deriving DecidableEq, Repr

/-- `ticker_df.merge(info_df, on='Symbol', how='inner', ...)`
(src/streamlit_integrated_app.py line 234): for each left row in order,
pair it with each right row of equal `Symbol`, in right order. -/
def innerJoin (meta : List MetaRow) (info : List InfoRow) :
    List (MetaRow × InfoRow) :=
  meta.flatMap (fun m =>
    (info.filter (fun i => i.symbol == m.symbol)).map (fun i => (m, i)))

/-- The `Name` resolution of src/streamlit_integrated_app.py line 238:
`merged_df['Name'] = merged_df['Name_info'].fillna(merged_df['Name'])` —
the summary-sourced name when it is non-null, else the metadata name. -/
def resolveName (metaName : String) (nameInfo : Option String) : String :=
  nameInfo.getD metaName

/-- Modelled from the spec (section 4.6), for comparison with `resolveName`:
"prefer the summary-sourced name if present and non-empty, else fall back
to the metadata-sourced name". -/
def specResolveName (metaName : String) (nameInfo : Option String) : String :=
  match nameInfo with
  | some s => if s = "" then metaName else s
  | none => metaName

/-- One merged row: metadata columns, resolved `Name`, summary columns. -/
def mergeRow (p : MetaRow × InfoRow) : MergedRow :=
  ⟨p.1.symbol, resolveName p.1.name p.2.nameInfo, p.1.marketCategory,
    p.1.exchange, p.2.lastSale, p.2.marketCap, p.2.volume⟩

/-- The tab-2 merge/filter block (src/streamlit_integrated_app.py lines
234-246): inner join on `Symbol`, resolve `Name`, then keep only rows with
`Last Sale ≥ min_price`, `Market Cap ≥ min_market_cap` and
`Volume ≥ min_volume`. -/
def mergeAndFilter (meta : List MetaRow) (info : List InfoRow)
    (minPrice minMarketCap minVolume : ℚ) : List MergedRow :=
  ((innerJoin meta info).map mergeRow).filter
    (fun r => decide (minPrice ≤ r.lastSale) &&
      decide (minMarketCap ≤ r.marketCap) && decide (minVolume ≤ r.volume))

/-- A row of the parsed `nasdaqlisted.txt` source (the columns the code
consults). -/
structure NasdaqSrcRow where
  symbol : String
  securityName : String
  testIssue : String
  marketCategory : String
deriving DecidableEq, Repr

/-- A row of the parsed `otherlisted.txt` source (the columns the code
consults). -/
structure OtherSrcRow where
  actSymbol : String
  securityName : String
  testIssue : String
deriving DecidableEq, Repr

/-- A row of the combined ticker dataframe returned by
`download_nasdaq_tickers` (`Symbol, Name, Market Category, Exchange`). -/
structure TickerRow where
  symbol : String
  name : String
  marketCategory : String
  exchange : String
deriving DecidableEq, Repr

/-- `download_nasdaq_tickers` (src/streamlit_integrated_app.py lines 31-64):
each source is fetched and parsed (an `Except` input models a raised
exception anywhere in that step); any exception is caught and an empty
dataframe returned. Rows with `Test Issue != 'N'` are dropped from each
source, the NASDAQ rows keep their market category and get exchange
`NASDAQ`, the other-listed rows get market category `N/A` and exchange
`OTHER`, and the two are concatenated in that order with `Security Name`
renamed to `Name`. -/
def download_nasdaq_tickers (nasdaqSrc : Except String (List NasdaqSrcRow))
    (otherSrc : Except String (List OtherSrcRow)) : List TickerRow :=
  match nasdaqSrc with
  | .error _ => []
  | .ok nrows =>
    match otherSrc with
    | .error _ => []
    | .ok orows =>
      let nasdaqClean := (nrows.filter (fun r => r.testIssue == "N")).map
        (fun r => TickerRow.mk r.symbol r.securityName r.marketCategory "NASDAQ")
      let otherClean := (orows.filter (fun r => r.testIssue == "N")).map
        (fun r => TickerRow.mk r.actSymbol r.securityName "N/A" "OTHER")
      nasdaqClean ++ otherClean

/-- Whether a `get_ticker_info_batch` provider outcome takes the success
branch (non-empty 5-day history, no exception). -/
def infoOk : InfoOutcome → Bool
  | .ok _ _ _ _ => true
  | .empty => false
  | .exn _ => false

theorem runBatch_fst (f : String → Bool × String) (l : List String) :
    (runBatch f l).1 = l.filter (fun t => (f t).1) := by
  induction l with
  | nil => rfl
  | cons t ts ih =>
    rcases hft : f t with ⟨ok, res⟩
    cases ok <;> simp [runBatch, hft, List.filter_cons, ih]

theorem runBatch_snd_fst (f : String → Bool × String) (l : List String) :
    (runBatch f l).2.map Prod.fst = l.filter (fun t => !(f t).1) := by
  induction l with
  | nil => rfl
  | cons t ts ih =>
    rcases hft : f t with ⟨ok, res⟩
    cases ok <;> simp [runBatch, hft, List.filter_cons, ih]

theorem runBatch_length (f : String → Bool × String) (l : List String) :
    (runBatch f l).1.length + (runBatch f l).2.length = l.length := by
  induction l with
  | nil => rfl
  | cons t ts ih =>
    rcases hft : f t with ⟨ok, res⟩
    cases ok <;> simp [runBatch, hft] <;> omega

theorem gtib_fst_symbols (p : String → InfoOutcome) (l : List String) :
    ((get_ticker_info_batch p l).1.map InfoRow.symbol)
      = l.filter (fun s => infoOk (p s)) := by
  induction l with
  | nil => rfl
  | cons s ss ih =>
    rcases hp : p s with ⟨n, lp, av, mc⟩ | _ | ⟨m⟩ <;>
      simp [get_ticker_info_batch, hp, infoOk, List.filter_cons, ih]

theorem gtib_snd (p : String → InfoOutcome) (l : List String) :
    (get_ticker_info_batch p l).2 = l.filter (fun s => !infoOk (p s)) := by
  induction l with
  | nil => rfl
  | cons s ss ih =>
    rcases hp : p s with ⟨n, lp, av, mc⟩ | _ | ⟨m⟩ <;>
      simp [get_ticker_info_batch, hp, infoOk, List.filter_cons, ih]

theorem gtib_length (p : String → InfoOutcome) (l : List String) :
    (get_ticker_info_batch p l).1.length + (get_ticker_info_batch p l).2.length
      = l.length := by
  induction l with
  | nil => rfl
  | cons s ss ih =>
    rcases hp : p s with ⟨n, lp, av, mc⟩ | _ | ⟨m⟩ <;>
      simp [get_ticker_info_batch, hp] <;> omega

theorem count_filter_not_add {α : Type} [DecidableEq α] (p : α → Bool)
    (s : α) (l : List α) :
    (l.filter p).count s + (l.filter (fun a => !p a)).count s = l.count s := by
  induction l with
  | nil => rfl
  | cons a l ih =>
    by_cases hpa : p a = true
    · have h2 : ¬((!p a) = true) := by simp [hpa]
      rw [List.filter_cons, List.filter_cons, if_pos hpa, if_neg h2,
        List.count_cons, List.count_cons]
      cases hsa : s == a <;> simp [hsa] <;> omega
    · have hpa' : p a = false := by simpa using hpa
      have h2 : (!p a) = true := by simp [hpa']
      rw [List.filter_cons, List.filter_cons, if_neg hpa, if_pos h2,
        List.count_cons, List.count_cons]
      cases hsa : s == a <;> simp [hsa] <;> omega

/-- C1: in both batch runners (`main`'s download loop and
`get_ticker_info_batch`), a run over distinct input symbols records every
input symbol in exactly one of the success collection and the failure
collection — the counts add up to the input length, each symbol is counted
exactly once across the two collections, and every recorded symbol comes
from the input — so no individual failure stops the rest of the batch. -/
theorem batch_partitions_symbols (fetch : String → Bool × String)
    (provider : String → InfoOutcome) (symbols : List String)
    (hnd : symbols.Nodup) :
    ((runBatch fetch symbols).1.length + (runBatch fetch symbols).2.length
        = symbols.length
      ∧ (∀ s ∈ symbols,
          (runBatch fetch symbols).1.count s
            + ((runBatch fetch symbols).2.map Prod.fst).count s = 1)
      ∧ (∀ s ∈ (runBatch fetch symbols).1, s ∈ symbols)
      ∧ (∀ q ∈ (runBatch fetch symbols).2, q.1 ∈ symbols))
    ∧ ((get_ticker_info_batch provider symbols).1.length
        + (get_ticker_info_batch provider symbols).2.length = symbols.length
      ∧ ∀ s ∈ symbols,
        ((get_ticker_info_batch provider symbols).1.map InfoRow.symbol).count s
          + (get_ticker_info_batch provider symbols).2.count s = 1) := by
  refine ⟨⟨runBatch_length fetch symbols, ?_, ?_, ?_⟩,
    gtib_length provider symbols, ?_⟩
  · intro s hs
    rw [runBatch_fst, runBatch_snd_fst]
    exact (count_filter_not_add (fun t => (fetch t).1) s symbols).trans
      (List.count_eq_one_of_mem hnd hs)
  · intro s hs
    rw [runBatch_fst] at hs
    exact (List.mem_filter.mp hs).1
  · intro q hq
    have hq1 : q.1 ∈ (runBatch fetch symbols).2.map Prod.fst :=
      List.mem_map_of_mem Prod.fst hq
    rw [runBatch_snd_fst] at hq1
    exact (List.mem_filter.mp hq1).1
  · intro s hs
    rw [gtib_fst_symbols, gtib_snd]
    exact (count_filter_not_add (fun t => infoOk (provider t)) s symbols).trans
      (List.count_eq_one_of_mem hnd hs)

/-- C1 witness: the partition property evaluated on the two-symbol batch
where only `AAPL` succeeds. -/
theorem batch_partitions_symbols_witness :
    (["AAPL", "BADTICKER"] : List String).Nodup ∧
      (runBatch (fun t => (t == "AAPL", "ok")) ["AAPL", "BADTICKER"]).1.length
        + (runBatch (fun t => (t == "AAPL", "ok")) ["AAPL", "BADTICKER"]).2.length
        = 2 :=
  ⟨by decide,
    (batch_partitions_symbols (fun t => (t == "AAPL", "ok"))
      (fun _ => InfoOutcome.empty) ["AAPL", "BADTICKER"] (by decide)).1.1⟩

/-- C2: the retry wrapper of `download_ticker_data` invokes the underlying
fetch at most 3 times, exactly once when the first attempt yields a
non-empty dataframe, and performs exactly one fixed 1-second back-off sleep
between each pair of consecutive attempts (one fewer sleep than calls). -/
theorem with_retry_attempt_bounds (provider : Nat → HistResult)
    (ticker : String) :
    (retryLoop provider ticker).calls ≤ 3
      ∧ (∀ n, provider 0 = HistResult.df n → n ≠ 0 →
          (retryLoop provider ticker).calls = 1)
      ∧ (retryLoop provider ticker).sleeps
          = List.replicate ((retryLoop provider ticker).calls - 1) 1 := by
  rcases h0 : provider 0 with ⟨_ | n0⟩ | ⟨m0⟩ <;>
  rcases h1 : provider 1 with ⟨_ | n1⟩ | ⟨m1⟩ <;>
  rcases h2 : provider 2 with ⟨_ | n2⟩ | ⟨m2⟩ <;>
    refine ⟨?_, ?_, ?_⟩ <;>
    simp [retryLoop, retryLoopAux, h0, h1, h2]

/-- C2 witness: a first-attempt success (250 rows) is fetched exactly once. -/
theorem with_retry_attempt_bounds_witness :
    (fun _ => HistResult.df 250) 0 = HistResult.df 250 ∧ (250 : Nat) ≠ 0 ∧
      (retryLoop (fun _ => HistResult.df 250) "AAPL").calls = 1 :=
  ⟨rfl, by decide,
    (with_retry_attempt_bounds (fun _ => HistResult.df 250) "AAPL").2.1 250 rfl
      (by decide)⟩

/-- C3 counterexample: in the spec scenario (`AAPL` succeeds with 250 rows,
`BADTICKER` empty on all 3 attempts) the batch records `BADTICKER` with the
last attempt's NoData reason `"데이터 없음"`, not the exhaustion tag — the
code's `"3번 시도 실패"` (RetriesExhausted) return is unreachable from the
loop. -/
theorem retries_exhausted_tag_counterexample :
    runBatch (fun s => (download_ticker_data false
        (fun _ => if s == "AAPL" then HistResult.df 250 else HistResult.df 0)
        s).result) ["AAPL", "BADTICKER"]
      = (["AAPL"], [("BADTICKER", "데이터 없음")])
    ∧ ("데이터 없음" : String) ≠ "RetriesExhausted"
    ∧ ("데이터 없음" : String) ≠ "3번 시도 실패" := by
  decide

/-- C3 (amended): a symbol whose fetch yields an empty dataframe on all 3
attempts is recorded as failed with the NoData reason `"데이터 없음"` after
exactly 3 calls and 2 back-off sleeps; in the spec scenario the batch
result is `succeeded = ["AAPL"]`,
`failed = {"BADTICKER": "데이터 없음"}`. -/
theorem retries_exhausted_amended (provider : Nat → HistResult)
    (ticker : String) (h : ∀ i, provider i = HistResult.df 0) :
    retryLoop provider ticker = ⟨(false, "데이터 없음"), 3, [1, 1], []⟩
      ∧ runBatch (fun s => (download_ticker_data false
          (fun _ => if s == "AAPL" then HistResult.df 250 else HistResult.df 0)
          s).result) ["AAPL", "BADTICKER"]
        = (["AAPL"], [("BADTICKER", "데이터 없음")]) := by
  constructor
  · simp [retryLoop, retryLoopAux, h 0, h 1, h 2]
  · decide

/-- C3 witness: the all-attempts-empty hypothesis discharged on the
constant NoData provider. -/
theorem retries_exhausted_amended_witness :
    (∀ i : Nat, (fun (_ : Nat) => HistResult.df 0) i = HistResult.df 0) ∧
      retryLoop (fun _ => HistResult.df 0) "BADTICKER"
        = ⟨(false, "데이터 없음"), 3, [1, 1], []⟩ :=
  ⟨fun _ => rfl,
    (retries_exhausted_amended (fun _ => HistResult.df 0) "BADTICKER"
      (fun _ => rfl)).1⟩

/-- C4: when the cache artifact for a symbol exists, `shouldFetch` is
false, `download_ticker_data` returns the skip success immediately with
zero provider calls (whatever the provider would return), and `main`'s
pre-filter also excludes the symbol from the batch. -/
theorem cached_artifact_skips_fetch (cached : Bool)
    (provider : Nat → HistResult) (ticker t : String)
    (selected existing : List String)
    (hc : cached = true) (ht : t ∈ existing) :
    shouldFetch cached = false
      ∧ download_ticker_data cached provider ticker
          = ⟨(true, "이미 다운로드됨"), 0, [], []⟩
      ∧ (download_ticker_data cached provider ticker).calls = 0
      ∧ t ∉ selectNewTickers selected existing := by
  subst hc
  refine ⟨rfl, rfl, rfl, ?_⟩
  intro hmem
  simp [selectNewTickers, List.mem_filter] at hmem
  exact hmem.2 ht

/-- C4 witness: a cached `AAPL` is skipped with zero fetch calls. -/
theorem cached_artifact_skips_fetch_witness :
    (true = true) ∧ ("AAPL" ∈ (["AAPL"] : List String)) ∧
      download_ticker_data true (fun _ => HistResult.df 0) "AAPL"
        = ⟨(true, "이미 다운로드됨"), 0, [], []⟩ :=
  ⟨rfl, by decide,
    (cached_artifact_skips_fetch true (fun _ => HistResult.df 0) "AAPL" "AAPL"
      [] ["AAPL"] rfl (by decide)).2.1⟩

/-- C5 counterexample: `fetch_stock_data` returns the same value `None` for
an empty result and for a provider exception, so a caller cannot tell the
two failure kinds apart from the returned value alone. -/
theorem fetch_failure_values_counterexample :
    fetch_stock_data (HistResult.df 0)
        = fetch_stock_data (HistResult.exn "network timeout")
      ∧ fetch_stock_data (HistResult.df 0) = none :=
  ⟨rfl, rfl⟩

/-- C5 (amended): `fetch_stock_data` collapses both failure kinds into the
single value `None`; only `download_ticker_data`'s retry loop returns
different reason strings — `"데이터 없음"` after persistent empty results
versus the exception's own message. -/
theorem fetch_failure_values_amended (m : String) (ticker : String) :
    fetch_stock_data (HistResult.df 0) = none
      ∧ fetch_stock_data (HistResult.exn m) = none
      ∧ (retryLoop (fun _ => HistResult.df 0) ticker).result
          = (false, "데이터 없음")
      ∧ (retryLoop (fun _ => HistResult.exn m) ticker).result = (false, m) := by
  refine ⟨rfl, rfl, ?_, ?_⟩ <;> simp [retryLoop, retryLoopAux]

/-- C6: `create_download_zip` yields no archive for an empty cache listing
and, for a non-empty one, an archive whose entries are exactly the listed
files; the dict-based `create_download_zip` produces exactly one entry per
input key, named `{name}.csv`, in input iteration order (an empty dict
gives an entry-less archive and the download button is not offered). -/
theorem buildArchive_entries (csvFiles : List String)
    (dataDict : List (String × Nat)) (h : csvFiles ≠ []) :
    create_download_zip [] = none
      ∧ create_download_zip csvFiles = some csvFiles
      ∧ (create_download_zip_dict dataDict).map Prod.fst
          = dataDict.map (fun p => p.1 ++ ".csv")
      ∧ (create_download_zip_dict dataDict).length = dataDict.length
      ∧ create_download_zip_dict [] = []
      ∧ zipOffered [] = false := by
  refine ⟨rfl, ?_, ?_, ?_, rfl, rfl⟩
  · simp [create_download_zip, h]
  · simp [create_download_zip_dict]
  · simp [create_download_zip_dict]

/-- C6 witness: the two-file cache from the spec scenario yields an archive
with exactly the entries `AAPL.csv`, `MSFT.csv`. -/
theorem buildArchive_entries_witness :
    (["AAPL.csv", "MSFT.csv"] : List String) ≠ []
      ∧ create_download_zip ["AAPL.csv", "MSFT.csv"]
          = some ["AAPL.csv", "MSFT.csv"] :=
  ⟨by decide,
    (buildArchive_entries ["AAPL.csv", "MSFT.csv"] [("AAPL", 1)]
      (by decide)).2.1⟩

theorem mem_innerJoin {meta : List MetaRow} {info : List InfoRow}
    {q : MetaRow × InfoRow} (hq : q ∈ innerJoin meta info) :
    q.1 ∈ meta ∧ q.2 ∈ info ∧ q.2.symbol = q.1.symbol := by
  rw [innerJoin, List.mem_flatMap] at hq
  obtain ⟨m, hm, hq2⟩ := hq
  rw [List.mem_map] at hq2
  obtain ⟨i, hi, rfl⟩ := hq2
  rw [List.mem_filter] at hi
  exact ⟨hm, hi.1, by simpa using hi.2⟩

/-- C7: every row of the tab-2 merge/filter output arises from a pair of
the inner join on `Symbol` (so its symbol occurs in both inputs; unmatched
rows are dropped), and satisfies all three threshold predicates
simultaneously. -/
theorem mergeAndFilter_subset_join (meta : List MetaRow) (info : List InfoRow)
    (minPrice minMarketCap minVolume : ℚ) (r : MergedRow)
    (hr : r ∈ mergeAndFilter meta info minPrice minMarketCap minVolume) :
    (∃ q ∈ innerJoin meta info, r = mergeRow q)
      ∧ (∃ m ∈ meta, m.symbol = r.symbol)
      ∧ (∃ i ∈ info, i.symbol = r.symbol)
      ∧ minPrice ≤ r.lastSale ∧ minMarketCap ≤ r.marketCap
      ∧ minVolume ≤ r.volume := by
  rw [mergeAndFilter, List.mem_filter] at hr
  obtain ⟨hmem, hcond⟩ := hr
  rw [List.mem_map] at hmem
  obtain ⟨q, hq, rfl⟩ := hmem
  obtain ⟨hm, hi, hsym⟩ := mem_innerJoin hq
  simp only [Bool.and_eq_true, decide_eq_true_eq] at hcond
  exact ⟨⟨q, hq, rfl⟩, ⟨q.1, hm, rfl⟩, ⟨q.2, hi, hsym⟩,
    hcond.1.1, hcond.1.2, hcond.2⟩

/-- C7 witness: the spec scenario (one `AAPL` metadata row, one summary row
at price 150, market cap 2·10¹², volume 5·10⁷, thresholds 5 / 10¹⁰ / 10⁵)
keeps the merged `AAPL` row and it passes the price threshold. -/
theorem mergeAndFilter_subset_join_witness :
    mergeRow (MetaRow.mk "AAPL" "Apple Inc" "Q" "NASDAQ",
        InfoRow.mk "AAPL" (some "Apple Inc.") 150 2000000000000 50000000)
      ∈ mergeAndFilter [MetaRow.mk "AAPL" "Apple Inc" "Q" "NASDAQ"]
          [InfoRow.mk "AAPL" (some "Apple Inc.") 150 2000000000000 50000000]
          5 10000000000 100000
    ∧ (5 : ℚ) ≤ (mergeRow (MetaRow.mk "AAPL" "Apple Inc" "Q" "NASDAQ",
        InfoRow.mk "AAPL" (some "Apple Inc.") 150 2000000000000
          50000000)).lastSale := by
  have hr : mergeRow (MetaRow.mk "AAPL" "Apple Inc" "Q" "NASDAQ",
      InfoRow.mk "AAPL" (some "Apple Inc.") 150 2000000000000 50000000)
      ∈ mergeAndFilter [MetaRow.mk "AAPL" "Apple Inc" "Q" "NASDAQ"]
        [InfoRow.mk "AAPL" (some "Apple Inc.") 150 2000000000000 50000000]
        5 10000000000 100000 := by decide
  exact ⟨hr, (mergeAndFilter_subset_join _ _ _ _ _ _ hr).2.2.2.1⟩

/-- C8 counterexample: `fillna` only replaces a null summary name — for the
present-but-empty summary name `""` the merged `Name` stays `""` instead of
falling back to the metadata name `"Apple Inc"` as the claim requires. -/
theorem name_resolution_counterexample :
    resolveName "Apple Inc" (some "") = ""
      ∧ specResolveName "Apple Inc" (some "") = "Apple Inc"
      ∧ (mergeRow (MetaRow.mk "AAPL" "Apple Inc" "Q" "NASDAQ",
          InfoRow.mk "AAPL" (some "") 150 2000000000000 50000000)).name = ""
      ∧ ("" : String) ≠ "Apple Inc" := by
  decide

/-- C8 (amended): the merged `Name` equals the summary-sourced name
whenever that name is present (non-null), even when it is the empty string,
and falls back to the metadata-sourced name only when the summary name is
missing/null. -/
theorem name_resolution_amended (metaName s : String)
    (q : MetaRow × InfoRow) :
    resolveName metaName (some s) = s
      ∧ resolveName metaName none = metaName
      ∧ (mergeRow q).name = resolveName q.1.name q.2.nameInfo :=
  ⟨rfl, rfl, rfl⟩

/-- C9 counterexample: on a successful first fetch, `download_ticker_data`
itself writes the series to the cache directory (`df.to_csv(path)`), so the
fetch operation is not free of side effects. -/
theorem fetch_pure_counterexample :
    (download_ticker_data false (fun _ => HistResult.df 250) "AAPL").writes
        = ["AAPL.csv"]
      ∧ (["AAPL.csv"] : List String) ≠ [] := by
  decide

/-- C9 (amended): `fetch_stock_data` performs no writes (it is a pure
function of the provider outcome), but `download_ticker_data` persists the
fetched series itself: a successful run writes exactly `{ticker}.csv` into
the cache directory, a failed run writes nothing, and a cache-hit run
writes nothing. -/
theorem fetch_write_effects (provider : Nat → HistResult) (ticker : String) :
    ((retryLoop provider ticker).result.1 = true →
        (retryLoop provider ticker).writes = [ticker ++ ".csv"])
      ∧ ((retryLoop provider ticker).result.1 = false →
          (retryLoop provider ticker).writes = [])
      ∧ (download_ticker_data true provider ticker).writes = [] := by
  refine ⟨?_, ?_, rfl⟩ <;>
  · rcases h0 : provider 0 with ⟨_ | n0⟩ | ⟨m0⟩ <;>
    rcases h1 : provider 1 with ⟨_ | n1⟩ | ⟨m1⟩ <;>
    rcases h2 : provider 2 with ⟨_ | n2⟩ | ⟨m2⟩ <;>
      simp [retryLoop, retryLoopAux, h0, h1, h2]

/-- C9 witness: the success-path write obligation evaluated on a
first-attempt success. -/
theorem fetch_write_effects_witness :
    (retryLoop (fun _ => HistResult.df 250) "AAPL").result.1 = true
      ∧ (retryLoop (fun _ => HistResult.df 250) "AAPL").writes
          = ["AAPL" ++ ".csv"] :=
  ⟨by decide,
    (fetch_write_effects (fun _ => HistResult.df 250) "AAPL").1 (by decide)⟩

/-- C10: `download_nasdaq_tickers` returns the empty table when fetching or
parsing either source fails (never propagating the exception, which the
`Except` input models), and every row of a successful result comes from a
source row whose `Test Issue` field equals `"N"`. -/
theorem nasdaq_tickers_error_and_filter (e : String)
    (nasdaqSrc : Except String (List NasdaqSrcRow))
    (otherSrc : Except String (List OtherSrcRow))
    (nrows : List NasdaqSrcRow) (orows : List OtherSrcRow) (r : TickerRow)
    (hr : r ∈ download_nasdaq_tickers (.ok nrows) (.ok orows)) :
    download_nasdaq_tickers (.error e) otherSrc = []
      ∧ download_nasdaq_tickers nasdaqSrc (.error e) = []
      ∧ ((∃ s ∈ nrows, s.testIssue = "N"
            ∧ r = TickerRow.mk s.symbol s.securityName s.marketCategory
                "NASDAQ")
          ∨ (∃ s ∈ orows, s.testIssue = "N"
            ∧ r = TickerRow.mk s.actSymbol s.securityName "N/A" "OTHER")) := by
  refine ⟨rfl, ?_, ?_⟩
  · cases nasdaqSrc <;> rfl
  · simp only [download_nasdaq_tickers, List.mem_append, List.mem_map,
      List.mem_filter] at hr
    rcases hr with ⟨s, ⟨hs, ht⟩, rfl⟩ | ⟨s, ⟨hs, ht⟩, rfl⟩
    · exact Or.inl ⟨s, hs, by simpa using ht, rfl⟩
    · exact Or.inr ⟨s, hs, by simpa using ht, rfl⟩

/-- C10 witness: with one `Test Issue = "N"` NASDAQ row, one test-issue row
and one other-listed row, the kept `AAPL` row is in the result, and an
erroring first source yields the empty table. -/
theorem nasdaq_tickers_error_and_filter_witness :
    (TickerRow.mk "AAPL" "Apple Inc" "Q" "NASDAQ")
        ∈ download_nasdaq_tickers
            (Except.ok [NasdaqSrcRow.mk "AAPL" "Apple Inc" "N" "Q",
              NasdaqSrcRow.mk "ZTST" "Test Co" "Y" "Q"])
            (Except.ok [OtherSrcRow.mk "BRK" "Berkshire" "N"])
      ∧ download_nasdaq_tickers (Except.error "boom")
          (Except.ok [OtherSrcRow.mk "BRK" "Berkshire" "N"]) = [] :=
  ⟨by decide,
    (nasdaq_tickers_error_and_filter "boom"
      (Except.ok [NasdaqSrcRow.mk "AAPL" "Apple Inc" "N" "Q"])
      (Except.ok [OtherSrcRow.mk "BRK" "Berkshire" "N"])
      [NasdaqSrcRow.mk "AAPL" "Apple Inc" "N" "Q"]
      [OtherSrcRow.mk "BRK" "Berkshire" "N"]
      (TickerRow.mk "AAPL" "Apple Inc" "Q" "NASDAQ") (by decide)).1⟩
